import Mathlib

/-!
Verification of the medical surge radar computation (src/surge_radar.py).

The script is straight-line arithmetic over operator-set sliders.  We embed
it shallowly: Python floats become exact rationals (all constants of the
script — 15.0, 0.65, 0.15, 0.05, 0.01, 2.0, 0.95 — are short decimals, and
the inputs are integers, so the rational model is the intended arithmetic),
and Python's `int()` conversion becomes truncation toward zero.
-/

/-- Venue category from the sidebar radio control: a fixed-perimeter
stadium versus an open fan zone. -/
inductive VenueKind where
  | Bounded : VenueKind
  | Unbounded : VenueKind
deriving DecidableEq, Repr

/-- Severity banner classification produced by the if/elif chain of the
script (lines 63-72). -/
inductive SeverityTier where
  | Normal : SeverityTier
  | Warning : SeverityTier
  | Critical : SeverityTier
  | Override : SeverityTier
deriving DecidableEq, Repr

/-- Operator-supplied scenario parameters (the four sidebar controls). -/
structure ScenarioInput where
  attendance : ℤ
  temperatureF : ℤ
  humidityPct : ℤ
  venueKind : VenueKind
deriving DecidableEq, Repr

/-- Python's `int()` applied to a rational: truncation toward zero. -/
def truncQ (q : ℚ) : ℤ :=
  if 0 ≤ q then ⌊q⌋ else ⌈q⌉

/-- The absolute number of transports the regional ED grid can handle
before critical failure (line 10). -/
def BASELINE_ED_CAPACITY : ℤ := 80

/-- Score representing disaster-level overcrowding (line 11). -/
def CRITICAL_NEDOCS_THRESHOLD : ℤ := 140

/-- Base patient presentation rate per 10,000 attendees (line 25). -/
def base_ppr_per_10k : ℚ := 15

/-- Heat-index-like environmental multiplier (line 29):
`1.0 + max(0, (temp - 85) * 0.05) + max(0, (humidity - 60) * 0.01)`. -/
def heat_index_multiplier (temp humidity : ℚ) : ℚ :=
  1 + max 0 ((temp - 85) * (5 / 100)) + max 0 ((humidity - 60) * (1 / 100))

/-- Venue multiplier (line 32): 2.0 for the unbounded fan zone, 1.0
otherwise. -/
def venue_multiplier (v : VenueKind) : ℚ :=
  if v = VenueKind.Unbounded then 2 else 1

/-- Total patient generation (line 35):
`int((attendance / 10000) * base_ppr_per_10k * heat_index_multiplier * venue_multiplier)`. -/
def total_patients (s : ScenarioInput) : ℤ :=
  truncQ (((s.attendance : ℚ) / 10000) * base_ppr_per_10k *
    heat_index_multiplier (s.temperatureF : ℚ) (s.humidityPct : ℚ) *
    venue_multiplier s.venueKind)

/-- On-site bucket of the asset allocator as a function of the total
(line 39): `int(total_patients * 0.65)`. -/
def onsite_of (total : ℤ) : ℤ :=
  truncQ ((total : ℚ) * (65 / 100))

/-- Alternate-care deflection bucket of the asset allocator as a function
of the total (line 40): `int(total_patients * 0.15)`. -/
def acs_of (total : ℤ) : ℤ :=
  truncQ ((total : ℚ) * (15 / 100))

/-- ED-transport bucket of the asset allocator as a function of the total
(line 41): the remainder `total_patients - onsite_treat - acs_telehealth`. -/
def ed_of (total : ℤ) : ℤ :=
  total - onsite_of total - acs_of total

/-- Patients treated and released at Main First Aid (line 39). -/
def onsite_treat (s : ScenarioInput) : ℤ :=
  onsite_of (total_patients s)

/-- Patients deflected to Alternate Care Sites (line 40). -/
def acs_telehealth (s : ScenarioInput) : ℤ :=
  acs_of (total_patients s)

/-- Patients transported to the ED grid (line 41). -/
def ed_transports (s : ScenarioInput) : ℤ :=
  ed_of (total_patients s)

/-- Surge burden (line 46): `(ed_transports / BASELINE_ED_CAPACITY) * 60`. -/
def surge_burden (s : ScenarioInput) : ℚ :=
  ((ed_transports s : ℚ) / (BASELINE_ED_CAPACITY : ℚ)) * 60

/-- Raw NEDOCS score before capping (line 47): `int(80 + surge_burden)`. -/
def nedocs_score_precap (s : ScenarioInput) : ℤ :=
  truncQ (80 + surge_burden s)

/-- Capped NEDOCS score (line 50): `min(nedocs_score, 200)`. -/
def nedocs_score (s : ScenarioInput) : ℤ :=
  min (nedocs_score_precap s) 200

/-- Warning threshold (line 58): `CRITICAL_NEDOCS_THRESHOLD * 0.95`. -/
def warning_threshold : ℚ :=
  (CRITICAL_NEDOCS_THRESHOLD : ℚ) * (95 / 100)

/-- Severity classification from the if/elif chain of lines 63-72,
evaluated on the capped score. -/
def severity_tier (s : ScenarioInput) : SeverityTier :=
  if 98 ≤ s.temperatureF then SeverityTier.Override
  else if CRITICAL_NEDOCS_THRESHOLD ≤ nedocs_score s then SeverityTier.Critical
  else if warning_threshold ≤ (nedocs_score s : ℚ) then SeverityTier.Warning
  else SeverityTier.Normal

/-- Documented input domains of the four sidebar controls (lines 15-18). -/
abbrev ValidInput (s : ScenarioInput) : Prop :=
  10000 ≤ s.attendance ∧ s.attendance ≤ 150000 ∧
  60 ≤ s.temperatureF ∧ s.temperatureF ≤ 120 ∧
  10 ≤ s.humidityPct ∧ s.humidityPct ≤ 100

/-- Evaluation lemma: the venue multiplier of a bounded stadium is 1. -/
theorem venue_multiplier_Bounded : venue_multiplier VenueKind.Bounded = 1 := rfl

/-- Evaluation lemma: the venue multiplier of an unbounded fan zone is 2. -/
theorem venue_multiplier_Unbounded : venue_multiplier VenueKind.Unbounded = 2 := rfl

/-- Helper: `truncQ` agrees with the floor on nonnegative rationals. -/
theorem truncQ_of_nonneg {q : ℚ} (h : 0 ≤ q) : truncQ q = ⌊q⌋ :=
  if_pos h

/-- Helper: `truncQ` of a nonnegative rational is nonnegative. -/
theorem truncQ_nonneg {q : ℚ} (h : 0 ≤ q) : 0 ≤ truncQ q := by
  rw [truncQ_of_nonneg h]
  exact Int.floor_nonneg.mpr h

/-- Helper: truncation toward zero is monotone. -/
theorem truncQ_mono {a b : ℚ} (h : a ≤ b) : truncQ a ≤ truncQ b := by
  unfold truncQ
  by_cases ha : 0 ≤ a
  · rw [if_pos ha, if_pos (le_trans ha h)]
    exact Int.floor_mono h
  · rw [if_neg ha]
    by_cases hb : 0 ≤ b
    · rw [if_pos hb]
      have h1 : ⌈a⌉ ≤ 0 := Int.ceil_le.mpr (by exact_mod_cast le_of_not_le ha)
      have h2 : (0 : ℤ) ≤ ⌊b⌋ := Int.floor_nonneg.mpr hb
      omega
    · rw [if_neg hb]
      exact Int.ceil_mono h

/-- Helper: the environmental multiplier is at least 1 for any inputs. -/
theorem one_le_heat_index_multiplier (t h : ℚ) : 1 ≤ heat_index_multiplier t h := by
  unfold heat_index_multiplier
  have h1 : (0 : ℚ) ≤ max 0 ((t - 85) * (5 / 100)) := le_max_left 0 _
  have h2 : (0 : ℚ) ≤ max 0 ((h - 60) * (1 / 100)) := le_max_left 0 _
  linarith

/-- Helper: the venue multiplier is at least 1 for either venue kind. -/
theorem one_le_venue_multiplier (v : VenueKind) : 1 ≤ venue_multiplier v := by
  unfold venue_multiplier
  split <;> norm_num

/-- Helper: the rational product fed to `int()` in the patient generator is
nonnegative whenever attendance is. -/
theorem total_arg_nonneg (s : ScenarioInput) (h : 0 ≤ s.attendance) :
    0 ≤ ((s.attendance : ℚ) / 10000) * base_ppr_per_10k *
      heat_index_multiplier (s.temperatureF : ℚ) (s.humidityPct : ℚ) *
      venue_multiplier s.venueKind := by
  have h0 : (0 : ℚ) ≤ (s.attendance : ℚ) := by exact_mod_cast h
  have h1 := one_le_heat_index_multiplier (s.temperatureF : ℚ) (s.humidityPct : ℚ)
  have h2 := one_le_venue_multiplier s.venueKind
  have hb : (0 : ℚ) ≤ base_ppr_per_10k := by norm_num [base_ppr_per_10k]
  exact mul_nonneg (mul_nonneg (mul_nonneg (div_nonneg h0 (by norm_num)) hb)
    (le_trans zero_le_one h1)) (le_trans zero_le_one h2)

/-- Helper: the total patient count is nonnegative whenever attendance is. -/
theorem total_patients_nonneg (s : ScenarioInput) (h : 0 ≤ s.attendance) :
    0 ≤ total_patients s :=
  truncQ_nonneg (total_arg_nonneg s h)

/-- Helper: for a nonnegative total the on-site bucket is a floor. -/
theorem onsite_of_eq_floor (t : ℤ) (ht : 0 ≤ t) :
    onsite_of t = ⌊(t : ℚ) * (65 / 100)⌋ := by
  have htq : (0 : ℚ) ≤ (t : ℚ) := by exact_mod_cast ht
  exact truncQ_of_nonneg (mul_nonneg htq (by norm_num))

/-- Helper: for a nonnegative total the deflection bucket is a floor. -/
theorem acs_of_eq_floor (t : ℤ) (ht : 0 ≤ t) :
    acs_of t = ⌊(t : ℚ) * (15 / 100)⌋ := by
  have htq : (0 : ℚ) ≤ (t : ℚ) := by exact_mod_cast ht
  exact truncQ_of_nonneg (mul_nonneg htq (by norm_num))

/-- Helper: the remainder bucket is at least 20% of a nonnegative total. -/
theorem ed_of_lower (t : ℤ) (ht : 0 ≤ t) :
    (2 / 10 : ℚ) * (t : ℚ) ≤ (ed_of t : ℚ) := by
  have f1 : (⌊(t : ℚ) * (65 / 100)⌋ : ℚ) ≤ (t : ℚ) * (65 / 100) := Int.floor_le _
  have f2 : (⌊(t : ℚ) * (15 / 100)⌋ : ℚ) ≤ (t : ℚ) * (15 / 100) := Int.floor_le _
  unfold ed_of
  rw [onsite_of_eq_floor t ht, acs_of_eq_floor t ht]
  push_cast
  linarith

/-- Helper: the remainder bucket exceeds 20% of a nonnegative total by less
than two patients. -/
theorem ed_of_upper (t : ℤ) (ht : 0 ≤ t) :
    (ed_of t : ℚ) ≤ (2 / 10 : ℚ) * (t : ℚ) + 2 := by
  have f1 : (t : ℚ) * (65 / 100) - 1 < (⌊(t : ℚ) * (65 / 100)⌋ : ℚ) :=
    Int.sub_one_lt_floor _
  have f2 : (t : ℚ) * (15 / 100) - 1 < (⌊(t : ℚ) * (15 / 100)⌋ : ℚ) :=
    Int.sub_one_lt_floor _
  unfold ed_of
  rw [onsite_of_eq_floor t ht, acs_of_eq_floor t ht]
  push_cast
  linarith

/-- Helper: the remainder bucket of a nonnegative total is nonnegative. -/
theorem ed_of_nonneg (t : ℤ) (ht : 0 ≤ t) : 0 ≤ ed_of t := by
  have h1 := ed_of_lower t ht
  have htq : (0 : ℚ) ≤ (t : ℚ) := by exact_mod_cast ht
  have : (0 : ℚ) ≤ (ed_of t : ℚ) := le_trans (by linarith) h1
  exact_mod_cast this

/-- Helper: ED transports are nonnegative whenever attendance is. -/
theorem ed_transports_nonneg (s : ScenarioInput) (h : 0 ≤ s.attendance) :
    0 ≤ ed_transports s :=
  ed_of_nonneg _ (total_patients_nonneg s h)

/-- Helper: the surge burden is nonnegative whenever attendance is. -/
theorem surge_burden_nonneg (s : ScenarioInput) (h : 0 ≤ s.attendance) :
    0 ≤ surge_burden s := by
  have h0 : (0 : ℚ) ≤ (ed_transports s : ℚ) := by
    exact_mod_cast ed_transports_nonneg s h
  unfold surge_burden BASELINE_ED_CAPACITY
  have : (0 : ℚ) ≤ (ed_transports s : ℚ) / ((80 : ℤ) : ℚ) :=
    div_nonneg h0 (by norm_num)
  linarith

/-- Helper: before capping, the score is at least the resting baseline 80. -/
theorem nedocs_precap_ge (s : ScenarioInput) (h : 0 ≤ s.attendance) :
    80 ≤ nedocs_score_precap s := by
  have hs := surge_burden_nonneg s h
  unfold nedocs_score_precap
  rw [truncQ_of_nonneg (by linarith)]
  exact Int.le_floor.mpr (by push_cast; linarith)

/-- C1: for every ScenarioInput in the documented input domains, the three
allocation buckets partition the total exactly:
`onSite + deflected + edTransports = totalPatients`, with
`onSite = ⌊0.65 × total⌋`, `deflected = ⌊0.15 × total⌋`, and `edTransports`
the remainder `total − onSite − deflected`. -/
theorem allocation_partition (s : ScenarioInput) (h : ValidInput s) :
    onsite_treat s + acs_telehealth s + ed_transports s = total_patients s ∧
    onsite_treat s = ⌊(total_patients s : ℚ) * (65 / 100)⌋ ∧
    acs_telehealth s = ⌊(total_patients s : ℚ) * (15 / 100)⌋ ∧
    ed_transports s = total_patients s - onsite_treat s - acs_telehealth s := by
  have h0 : 0 ≤ s.attendance := le_trans (by norm_num) h.1
  have ht := total_patients_nonneg s h0
  refine ⟨?_, onsite_of_eq_floor _ ht, acs_of_eq_floor _ ht, rfl⟩
  unfold onsite_treat acs_telehealth ed_transports ed_of
  ring

/-- C1 witness: the partition invariant at the default slider values. -/
theorem allocation_partition_witness :
    ValidInput ⟨65000, 85, 60, VenueKind.Bounded⟩ ∧
    onsite_treat ⟨65000, 85, 60, VenueKind.Bounded⟩ +
      acs_telehealth ⟨65000, 85, 60, VenueKind.Bounded⟩ +
      ed_transports ⟨65000, 85, 60, VenueKind.Bounded⟩ =
      total_patients ⟨65000, 85, 60, VenueKind.Bounded⟩ :=
  ⟨by decide, (allocation_partition ⟨65000, 85, 60, VenueKind.Bounded⟩ (by decide)).1⟩

/-- C2: tier classification fires in strict priority order: temperature at or
above 98 °F yields Override regardless of score; otherwise a capped score of
at least 140 yields Critical; otherwise at least 133 (= 140 × 0.95) yields
Warning; otherwise Normal. -/
theorem tier_priority_order (s : ScenarioInput) :
    (98 ≤ s.temperatureF → severity_tier s = SeverityTier.Override) ∧
    (s.temperatureF < 98 → 140 ≤ nedocs_score s →
      severity_tier s = SeverityTier.Critical) ∧
    (s.temperatureF < 98 → nedocs_score s < 140 → 133 ≤ nedocs_score s →
      severity_tier s = SeverityTier.Warning) ∧
    (s.temperatureF < 98 → nedocs_score s < 133 →
      severity_tier s = SeverityTier.Normal) := by
  have hw : warning_threshold = 133 := by
    norm_num [warning_threshold, CRITICAL_NEDOCS_THRESHOLD]
  have hc : CRITICAL_NEDOCS_THRESHOLD = 140 := rfl
  unfold severity_tier
  rw [hw, hc]
  refine ⟨fun h1 => by rw [if_pos h1], fun h1 h2 => ?_, fun h1 h2 h3 => ?_,
    fun h1 h2 => ?_⟩
  · rw [if_neg (not_le.mpr h1), if_pos h2]
  · rw [if_neg (not_le.mpr h1), if_neg (not_le.mpr h2),
      if_pos (show (133 : ℚ) ≤ (nedocs_score s : ℚ) by exact_mod_cast h3)]
  · rw [if_neg (not_le.mpr h1),
      if_neg (not_le.mpr (lt_of_lt_of_le h2 (by norm_num))),
      if_neg (not_le.mpr (show (nedocs_score s : ℚ) < 133 by exact_mod_cast h2))]

/-- C2 witness: each of the four tiers is reached at a concrete input that
discharges the corresponding hypotheses. -/
theorem tier_priority_order_witness :
    severity_tier ⟨150000, 98, 100, VenueKind.Unbounded⟩ = SeverityTier.Override ∧
    severity_tier ⟨150000, 97, 100, VenueKind.Unbounded⟩ = SeverityTier.Critical ∧
    severity_tier ⟨120000, 85, 60, VenueKind.Unbounded⟩ = SeverityTier.Warning ∧
    severity_tier ⟨65000, 85, 60, VenueKind.Bounded⟩ = SeverityTier.Normal := by
  have e1 : nedocs_score ⟨150000, 97, 100, VenueKind.Unbounded⟩ = 200 := by
    norm_num [nedocs_score, nedocs_score_precap, surge_burden, ed_transports, ed_of,
      acs_of, onsite_of, total_patients, truncQ, heat_index_multiplier,
      venue_multiplier_Unbounded, base_ppr_per_10k, BASELINE_ED_CAPACITY]
  have e2 : nedocs_score ⟨120000, 85, 60, VenueKind.Unbounded⟩ = 134 := by
    norm_num [nedocs_score, nedocs_score_precap, surge_burden, ed_transports, ed_of,
      acs_of, onsite_of, total_patients, truncQ, heat_index_multiplier,
      venue_multiplier_Unbounded, base_ppr_per_10k, BASELINE_ED_CAPACITY]
  have e3 : nedocs_score ⟨65000, 85, 60, VenueKind.Bounded⟩ = 95 := by
    norm_num [nedocs_score, nedocs_score_precap, surge_burden, ed_transports, ed_of,
      acs_of, onsite_of, total_patients, truncQ, heat_index_multiplier,
      venue_multiplier_Bounded, base_ppr_per_10k, BASELINE_ED_CAPACITY]
  refine ⟨(tier_priority_order _).1 (by norm_num),
    (tier_priority_order _).2.1 (by norm_num) (by rw [e1]; norm_num),
    (tier_priority_order _).2.2.1 (by norm_num) (by rw [e2]; norm_num)
      (by rw [e2]; norm_num),
    (tier_priority_order _).2.2.2 (by norm_num) (by rw [e3]; norm_num)⟩

/-- C3: for every ScenarioInput in the documented input domains, the capped
NEDOCS score lies between 0 and 200. -/
theorem nedocs_capped_bounds (s : ScenarioInput) (h : ValidInput s) :
    0 ≤ nedocs_score s ∧ nedocs_score s ≤ 200 := by
  have h0 : 0 ≤ s.attendance := le_trans (by norm_num) h.1
  constructor
  · exact le_trans (by norm_num) (le_min (nedocs_precap_ge s h0) (by norm_num))
  · exact min_le_right _ _

/-- C3 witness: the bounds at the default slider values. -/
theorem nedocs_capped_bounds_witness :
    ValidInput ⟨65000, 85, 60, VenueKind.Bounded⟩ ∧
    0 ≤ nedocs_score ⟨65000, 85, 60, VenueKind.Bounded⟩ ∧
    nedocs_score ⟨65000, 85, 60, VenueKind.Bounded⟩ ≤ 200 :=
  ⟨by decide, nedocs_capped_bounds ⟨65000, 85, 60, VenueKind.Bounded⟩ (by decide)⟩

/-- C4: for all numeric temperature and humidity inputs the environmental
multiplier equals `1 + max 0 ((t − 85) × 0.05) + max 0 ((h − 60) × 0.01)`,
it is always at least 1, and inputs at or below the 85 °F / 60 % reference
points contribute nothing. -/
theorem heat_index_multiplier_spec (t h : ℚ) :
    heat_index_multiplier t h =
      1 + max 0 ((t - 85) * (5 / 100)) + max 0 ((h - 60) * (1 / 100)) ∧
    1 ≤ heat_index_multiplier t h ∧
    (t ≤ 85 → h ≤ 60 → heat_index_multiplier t h = 1) := by
  refine ⟨rfl, one_le_heat_index_multiplier t h, fun h1 h2 => ?_⟩
  unfold heat_index_multiplier
  rw [max_eq_left (by linarith), max_eq_left (by linarith)]
  ring

/-- C4 witness: at the reference point (85 °F, 60 %) the multiplier is
exactly 1. -/
theorem heat_index_multiplier_spec_witness : heat_index_multiplier 85 60 = 1 :=
  (heat_index_multiplier_spec 85 60).2.2 (by norm_num) (by norm_num)

/-- C5: for every ScenarioInput with nonnegative attendance (the data model
requires attendance ≥ 0), the total patient count is the floor of
`(attendance / 10000) × 15 × envMultiplier × venueMultiplier`, where the
venue multiplier is 2 for Unbounded and 1 for Bounded; `int()` truncation
toward zero agrees with the floor on this nonnegative product. -/
theorem total_patients_spec (s : ScenarioInput) (h : 0 ≤ s.attendance) :
    total_patients s =
      ⌊((s.attendance : ℚ) / 10000) * 15 *
        heat_index_multiplier (s.temperatureF : ℚ) (s.humidityPct : ℚ) *
        venue_multiplier s.venueKind⌋ ∧
    venue_multiplier VenueKind.Unbounded = 2 ∧
    venue_multiplier VenueKind.Bounded = 1 := by
  refine ⟨?_, rfl, rfl⟩
  exact truncQ_of_nonneg (total_arg_nonneg s h)

/-- C5 witness: the floor characterization at the default slider values. -/
theorem total_patients_spec_witness :
    (0 : ℤ) ≤ 65000 ∧
    total_patients ⟨65000, 85, 60, VenueKind.Bounded⟩ =
      ⌊((65000 : ℚ) / 10000) * 15 * heat_index_multiplier 85 60 *
        venue_multiplier VenueKind.Bounded⌋ :=
  ⟨by norm_num, (total_patients_spec ⟨65000, 85, 60, VenueKind.Bounded⟩ (by norm_num)).1⟩

/-- C6: for every ScenarioInput in the documented input domains, the raw
severity score is `80 + (edTransports / 80) × 60` with the fixed nonzero
baseline 80, and the capped score is `min ⌊raw⌋ 200`. -/
theorem nedocs_spec (s : ScenarioInput) (h : ValidInput s) :
    surge_burden s = ((ed_transports s : ℚ) / 80) * 60 ∧
    nedocs_score s = min ⌊80 + ((ed_transports s : ℚ) / 80) * 60⌋ 200 := by
  have h0 : 0 ≤ s.attendance := le_trans (by norm_num) h.1
  have hsb : surge_burden s = ((ed_transports s : ℚ) / 80) * 60 := by
    unfold surge_burden BASELINE_ED_CAPACITY
    norm_num
  refine ⟨hsb, ?_⟩
  unfold nedocs_score nedocs_score_precap
  rw [truncQ_of_nonneg (by linarith [surge_burden_nonneg s h0]), hsb]

/-- C6 witness: the score characterization at the default slider values. -/
theorem nedocs_spec_witness :
    ValidInput ⟨65000, 85, 60, VenueKind.Bounded⟩ ∧
    nedocs_score ⟨65000, 85, 60, VenueKind.Bounded⟩ =
      min ⌊80 + ((ed_transports ⟨65000, 85, 60, VenueKind.Bounded⟩ : ℚ) / 80) * 60⌋
        200 :=
  ⟨by decide, (nedocs_spec ⟨65000, 85, 60, VenueKind.Bounded⟩ (by decide)).2⟩

/-- C7: the concrete scenario attendance=65000, temp=85 °F, humidity=60 %,
venue=Bounded yields envMultiplier=1, venueMultiplier=1, totalPatients=97,
onSite=63, deflected=14, edTransports=20, raw score 95, capped score 95 and
tier Normal. -/
theorem scenario_one_spec :
    heat_index_multiplier 85 60 = 1 ∧
    venue_multiplier VenueKind.Bounded = 1 ∧
    total_patients ⟨65000, 85, 60, VenueKind.Bounded⟩ = 97 ∧
    onsite_treat ⟨65000, 85, 60, VenueKind.Bounded⟩ = 63 ∧
    acs_telehealth ⟨65000, 85, 60, VenueKind.Bounded⟩ = 14 ∧
    ed_transports ⟨65000, 85, 60, VenueKind.Bounded⟩ = 20 ∧
    80 + surge_burden ⟨65000, 85, 60, VenueKind.Bounded⟩ = 95 ∧
    nedocs_score ⟨65000, 85, 60, VenueKind.Bounded⟩ = 95 ∧
    severity_tier ⟨65000, 85, 60, VenueKind.Bounded⟩ = SeverityTier.Normal := by
  norm_num [severity_tier, nedocs_score, nedocs_score_precap, surge_burden,
    ed_transports, ed_of, acs_telehealth, acs_of, onsite_treat, onsite_of,
    total_patients, truncQ, heat_index_multiplier, venue_multiplier_Bounded,
    base_ppr_per_10k, BASELINE_ED_CAPACITY, CRITICAL_NEDOCS_THRESHOLD,
    warning_threshold]

/-- C8: holding temperature, humidity and venue fixed, a larger attendance
never yields a smaller total patient count. -/
theorem total_patients_mono (s₁ s₂ : ScenarioInput)
    (ht : s₁.temperatureF = s₂.temperatureF) (hh : s₁.humidityPct = s₂.humidityPct)
    (hv : s₁.venueKind = s₂.venueKind) (ha : s₁.attendance ≤ s₂.attendance) :
    total_patients s₁ ≤ total_patients s₂ := by
  unfold total_patients
  apply truncQ_mono
  rw [ht, hh, hv]
  have haq : (s₁.attendance : ℚ) ≤ (s₂.attendance : ℚ) := by exact_mod_cast ha
  have h1 := one_le_heat_index_multiplier (s₂.temperatureF : ℚ) (s₂.humidityPct : ℚ)
  have h2 := one_le_venue_multiplier s₂.venueKind
  have hb : (0 : ℚ) ≤ base_ppr_per_10k := by norm_num [base_ppr_per_10k]
  have hc : (0 : ℚ) ≤ base_ppr_per_10k *
      heat_index_multiplier (s₂.temperatureF : ℚ) (s₂.humidityPct : ℚ) *
      venue_multiplier s₂.venueKind / 10000 :=
    div_nonneg (mul_nonneg (mul_nonneg hb (le_trans zero_le_one h1))
      (le_trans zero_le_one h2)) (by norm_num)
  calc ((s₁.attendance : ℚ) / 10000) * base_ppr_per_10k *
        heat_index_multiplier (s₂.temperatureF : ℚ) (s₂.humidityPct : ℚ) *
        venue_multiplier s₂.venueKind
      = (s₁.attendance : ℚ) * (base_ppr_per_10k *
          heat_index_multiplier (s₂.temperatureF : ℚ) (s₂.humidityPct : ℚ) *
          venue_multiplier s₂.venueKind / 10000) := by ring
    _ ≤ (s₂.attendance : ℚ) * (base_ppr_per_10k *
          heat_index_multiplier (s₂.temperatureF : ℚ) (s₂.humidityPct : ℚ) *
          venue_multiplier s₂.venueKind / 10000) :=
        mul_le_mul_of_nonneg_right haq hc
    _ = ((s₂.attendance : ℚ) / 10000) * base_ppr_per_10k *
          heat_index_multiplier (s₂.temperatureF : ℚ) (s₂.humidityPct : ℚ) *
          venue_multiplier s₂.venueKind := by ring

/-- C8 witness: monotonicity between two concrete scenarios that differ only
in attendance. -/
theorem total_patients_mono_witness :
    total_patients ⟨65000, 85, 60, VenueKind.Bounded⟩ ≤
      total_patients ⟨70000, 85, 60, VenueKind.Bounded⟩ :=
  total_patients_mono ⟨65000, 85, 60, VenueKind.Bounded⟩
    ⟨70000, 85, 60, VenueKind.Bounded⟩ rfl rfl rfl (by norm_num)

/-- C9: for every ScenarioInput in the documented input domains, the capped
NEDOCS score is at least the resting baseline 80, so the gauge band [0,80]
is never occupied by the needle value. -/
theorem nedocs_score_ge_baseline (s : ScenarioInput) (h : ValidInput s) :
    80 ≤ nedocs_score s := by
  have h0 : 0 ≤ s.attendance := le_trans (by norm_num) h.1
  exact le_min (nedocs_precap_ge s h0) (by norm_num)

/-- C9 witness: the baseline lower bound at the default slider values. -/
theorem nedocs_score_ge_baseline_witness :
    ValidInput ⟨65000, 85, 60, VenueKind.Bounded⟩ ∧
    80 ≤ nedocs_score ⟨65000, 85, 60, VenueKind.Bounded⟩ :=
  ⟨by decide, nedocs_score_ge_baseline ⟨65000, 85, 60, VenueKind.Bounded⟩ (by decide)⟩

/-- C10: for every nonnegative integer total, the remainder transport bucket
is nonnegative and satisfies `0.20 × total ≤ edTransports ≤ 0.20 × total + 2`. -/
theorem ed_of_share_bounds (total : ℤ) (h : 0 ≤ total) :
    0 ≤ ed_of total ∧
    (2 / 10 : ℚ) * (total : ℚ) ≤ (ed_of total : ℚ) ∧
    (ed_of total : ℚ) ≤ (2 / 10 : ℚ) * (total : ℚ) + 2 :=
  ⟨ed_of_nonneg total h, ed_of_lower total h, ed_of_upper total h⟩

/-- C10 witness: the transport-share bounds at a total of 97 patients. -/
theorem ed_of_share_bounds_witness :
    (0 : ℤ) ≤ 97 ∧
    0 ≤ ed_of 97 ∧
    (2 / 10 : ℚ) * ((97 : ℤ) : ℚ) ≤ (ed_of 97 : ℚ) ∧
    (ed_of 97 : ℚ) ≤ (2 / 10 : ℚ) * ((97 : ℤ) : ℚ) + 2 :=
  ⟨by norm_num, ed_of_share_bounds 97 (by norm_num)⟩
